import Mathlib

/-! # FatFs application interface (`ff.h`, R0.15a) – a shallow embedding

The header `source/ff.h` fixes the integer types, the object structures, the
result codes, the prototypes of the API, the API macros and the flag
constants of the module.  This file embeds these parts as Lean definitions
and proves properties of them.

Machine integers are natural numbers; a value of a `w`-bit unsigned type is
reduced modulo `2 ^ w` wherever the C code could wrap.
-/

set_option autoImplicit false

namespace FatFs

/-! ## Integer types (ff.h 37-63) -/

/-- Width in bits of `BYTE` (ff.h 50: "char must be 8-bit"). -/
def BYTE_BITS : Nat := 8

/-- Width in bits of `WORD` (ff.h 51: `uint16_t`, "16-bit unsigned"; ff.h 60 asks
the `unsigned short` of an older compiler to be 16-bit as well). -/
def WORD_BITS : Nat := 16

/-- Width in bits of `DWORD` with the C99 integer types (ff.h 52: `uint32_t`,
"32-bit unsigned"). -/
def DWORD_BITS : Nat := 32

/-- Width in bits of `QWORD` (ff.h 53: "64-bit unsigned"). -/
def QWORD_BITS : Nat := 64

/-- Value of `FF_INTDEF` chosen by the `#if` of ff.h 41: `2` when the compiler
announces C99 or later (or C++), `1` otherwise (ff.h 47, 57). -/
def FF_INTDEF (c99 : Bool) : Nat :=
  if c99 then 2 else 1

/-- Integer-definition section of ff.h 41-63 with its compiler guard: a C99
compiler that is an MSVC older than 1900 is stopped by the `#error` of
ff.h 43-45, every other compiler gets its `FF_INTDEF`. -/
def intdefSection (c99 oldMsvc : Bool) : Except String Nat :=
  if c99 then
    if oldMsvc then .error "Please use a more recent version of MSVC"
    else .ok 2
  else .ok 1

/-- Width in bits of the `DWORD` that the integer section defines: `uint32_t`
when `FF_INTDEF` is 2 (ff.h 52), and `unsigned long` otherwise (ff.h 61), whose
width `longBits` is that of the compiler.  The comment of ff.h 61 says "long
must be 32-bit"; no `#if` of the header checks it. -/
def DWORD_width (intdef longBits : Nat) : Nat :=
  if intdef == 2 then DWORD_BITS else longBits

/-- Result of the section "Type of file size and LBA variables": the widths in
bits of `FSIZE_t` and of `LBA_t`. -/
structure SizeTypes where
  fsizeBits : Nat
  lbaBits : Nat
  deriving DecidableEq, Repr

/-- Type selection of ff.h 68-84 as the preprocessor performs it, from the value of
`FF_INTDEF`, the width of the `unsigned long` of the compiler and the switches
`FF_FS_EXFAT` and `FF_LBA64`.  An `#error` is a rejected configuration;
`QWORD` exists with the C99 integer types only and is `uint64_t`. -/
def typeSelection (intdef longBits : Nat) (exfat lba64 : Bool) : Except String SizeTypes :=
  if exfat then
    if intdef != 2 then .error "exFAT feature wants C99 or later"
    else if lba64 then .ok ⟨QWORD_BITS, QWORD_BITS⟩
    else .ok ⟨QWORD_BITS, DWORD_width intdef longBits⟩
  else
    if lba64 then .error "exFAT needs to be enabled when enable 64-bit LBA"
    else .ok ⟨DWORD_width intdef longBits, DWORD_width intdef longBits⟩

/-- Whether a result of the preprocessor is an `#error`. -/
def rejected {α : Type} : Except String α → Bool
  | .error _ => true
  | .ok _ => false

/-! ## Unsigned arithmetic -/

/-- Subtraction of two values of a `w`-bit unsigned type (C wraps modulo `2 ^ w`). -/
def usub (w a b : Nat) : Nat :=
  (a % 2 ^ w + 2 ^ w - b % 2 ^ w) % 2 ^ w

/-! ## Flags (ff.h 370-400) -/

def FA_READ : Nat := 0x01
def FA_WRITE : Nat := 0x02
def FA_OPEN_EXISTING : Nat := 0x00
def FA_CREATE_NEW : Nat := 0x04
def FA_CREATE_ALWAYS : Nat := 0x08
def FA_OPEN_ALWAYS : Nat := 0x10
def FA_OPEN_APPEND : Nat := 0x30

/-- Fast seek control `CREATE_LINKMAP` of ff.h 380, `((FSIZE_t)0 - 1)`, for an
`FSIZE_t` of `w` bits. -/
def CREATE_LINKMAP (w : Nat) : Nat :=
  usub w 0 1

def AM_RDO : Nat := 0x01
def AM_HID : Nat := 0x02
def AM_SYS : Nat := 0x04
def AM_DIR : Nat := 0x10
def AM_ARC : Nat := 0x20

/-- Modelled from the spec: the attribute of a long-file-name entry, "LFN entries
(attribute `0x0F`)".  The header publishes no name for it. -/
def AM_LFN : Nat := 0x0F

/-- The attribute bits published by ff.h 396-400, in the order of the header. -/
def attributeMasks : List Nat :=
  [AM_RDO, AM_HID, AM_SYS, AM_DIR, AM_ARC]

/-- Attribute byte formed by OR-ing a list of masks. -/
def orAll (ms : List Nat) : Nat :=
  ms.foldr (fun m acc => m ||| acc) 0

/-- Whether a number is a single bit of a byte. -/
def isSingleBit (m : Nat) : Bool :=
  (List.range BYTE_BITS).any (fun i => m == 2 ^ i)

/-- Whether the members of a list of masks share no bit, any two of them. -/
def pairwiseDisjoint : List Nat → Bool
  | [] => true
  | m :: ms => ms.all (fun k => m &&& k == 0) && pairwiseDisjoint ms

/-! ## Result codes (ff.h 254-277) -/

/-- The enumerators of `FRESULT`, in the order of ff.h 257-276. -/
inductive FRESULT where
  | FR_OK
  | FR_DISK_ERR
  | FR_INT_ERR
  | FR_NOT_READY
  | FR_NO_FILE
  | FR_NO_PATH
  | FR_INVALID_NAME
  | FR_DENIED
  | FR_EXIST
  | FR_INVALID_OBJECT
  | FR_WRITE_PROTECTED
  | FR_INVALID_DRIVE
  | FR_NOT_ENABLED
  | FR_NO_FILESYSTEM
  | FR_MKFS_ABORTED
  | FR_TIMEOUT
  | FR_LOCKED
  | FR_NOT_ENOUGH_CORE
  | FR_TOO_MANY_OPEN_FILES
  | FR_INVALID_PARAMETER
  deriving DecidableEq, Repr

/-- One line of an `enum` body: the enumerator, its spelling, its explicit
initialiser when it has one, and the number its comment states. -/
structure Enumerator where
  tag : FRESULT
  spelling : String
  initialiser : Option Nat
  commented : Nat

/-- The body of `typedef enum ... FRESULT`, line by line (ff.h 257-276).  Only
`FR_OK` has an initialiser. -/
def FRESULT_body : List Enumerator :=
  [ ⟨.FR_OK, "FR_OK", some 0, 0⟩,
    ⟨.FR_DISK_ERR, "FR_DISK_ERR", none, 1⟩,
    ⟨.FR_INT_ERR, "FR_INT_ERR", none, 2⟩,
    ⟨.FR_NOT_READY, "FR_NOT_READY", none, 3⟩,
    ⟨.FR_NO_FILE, "FR_NO_FILE", none, 4⟩,
    ⟨.FR_NO_PATH, "FR_NO_PATH", none, 5⟩,
    ⟨.FR_INVALID_NAME, "FR_INVALID_NAME", none, 6⟩,
    ⟨.FR_DENIED, "FR_DENIED", none, 7⟩,
    ⟨.FR_EXIST, "FR_EXIST", none, 8⟩,
    ⟨.FR_INVALID_OBJECT, "FR_INVALID_OBJECT", none, 9⟩,
    ⟨.FR_WRITE_PROTECTED, "FR_WRITE_PROTECTED", none, 10⟩,
    ⟨.FR_INVALID_DRIVE, "FR_INVALID_DRIVE", none, 11⟩,
    ⟨.FR_NOT_ENABLED, "FR_NOT_ENABLED", none, 12⟩,
    ⟨.FR_NO_FILESYSTEM, "FR_NO_FILESYSTEM", none, 13⟩,
    ⟨.FR_MKFS_ABORTED, "FR_MKFS_ABORTED", none, 14⟩,
    ⟨.FR_TIMEOUT, "FR_TIMEOUT", none, 15⟩,
    ⟨.FR_LOCKED, "FR_LOCKED", none, 16⟩,
    ⟨.FR_NOT_ENOUGH_CORE, "FR_NOT_ENOUGH_CORE", none, 17⟩,
    ⟨.FR_TOO_MANY_OPEN_FILES, "FR_TOO_MANY_OPEN_FILES", none, 18⟩,
    ⟨.FR_INVALID_PARAMETER, "FR_INVALID_PARAMETER", none, 19⟩ ]

/-- Values a C compiler gives the enumerators of an `enum` body: an initialiser
is taken as it stands, an enumerator without one is one more than its
predecessor, and the first is 0 when it has none.  `next` is the value an
enumerator without initialiser would get. -/
def enumValues : List Enumerator → Nat → List (FRESULT × Nat)
  | [], _ => []
  | e :: es, next =>
    let v := e.initialiser.getD next
    (e.tag, v) :: enumValues es (v + 1)

/-- The integer value of a result code, as the compiler assigns it. -/
def FRESULT.toNat (r : FRESULT) : Nat :=
  ((enumValues FRESULT_body 0).lookup r).getD 0

/-- Result kinds of the table of section 7 of the specification, in the order of
the table (the row `NO_FILE` / `NO_PATH` holds two kinds). -/
def specResultKinds : List String :=
  [ "OK", "DISK_ERR", "INT_ERR", "NOT_READY", "NO_FILE", "NO_PATH",
    "INVALID_NAME", "DENIED", "EXIST", "INVALID_OBJECT", "WRITE_PROTECTED",
    "INVALID_DRIVE", "NOT_ENABLED", "NO_FILESYSTEM", "MKFS_ABORTED", "TIMEOUT",
    "LOCKED", "NOT_ENOUGH_CORE", "TOO_MANY_OPEN_FILES", "INVALID_PARAMETER" ]

/-! ## Object structures (ff.h 114-201) -/

/-- The fields of the filesystem object `FATFS` (ff.h 114-155) that carry the
mount identity and the allocation counters.  `id` is a `WORD`; `last_clst`,
`free_clst` and `n_fatent` are `DWORD`s. -/
structure FATFS where
  fs_type : Nat
  id : Nat
  last_clst : Nat
  free_clst : Nat
  n_fatent : Nat
  deriving DecidableEq, Repr

/-- Object identifier `FFOBJID` (ff.h 161-178), unconditional members.  The
pointer `fs` is left out; `id` is the copy of the mount id of the hosting
volume. -/
structure FFOBJID where
  id : Nat
  attr : Nat
  stat : Nat
  sclust : Nat
  objsize : Nat
  deriving DecidableEq, Repr

/-- File object `FFFIL` (ff.h 184-201), unconditional members. -/
structure FFFIL where
  obj : FFOBJID
  flag : Nat
  err : Nat
  fptr : Nat
  clust : Nat
  sect : Nat
  deriving DecidableEq, Repr

/-! ## API macros that read a file object (ff.h 319-322)

Each macro is an expression without assignment.  It is embedded as a
function from the object to the value of the expression paired with the
object after the evaluation. -/

/-- Macro `f_eof(fp)`: `((int)((fp)->fptr == (fp)->obj.objsize))`. -/
def f_eof (fp : FFFIL) : Int × FFFIL :=
  (if fp.fptr == fp.obj.objsize then 1 else 0, fp)

/-- Macro `f_error(fp)`: `((fp)->err)`. -/
def f_error (fp : FFFIL) : Nat × FFFIL :=
  (fp.err, fp)

/-- Macro `f_tell(fp)`: `((fp)->fptr)`. -/
def f_tell (fp : FFFIL) : Nat × FFFIL :=
  (fp.fptr, fp)

/-- Macro `f_size(fp)`: `((fp)->obj.objsize)`. -/
def f_size (fp : FFFIL) : Nat × FFFIL :=
  (fp.obj.objsize, fp)

/-! ## Advisory allocation counters (ff.h 133-134, 144) -/

/-- Modelled from the spec: the free count that the invariant "sum over clusters
of (in-use? 1 : 0) + free_clst = n_fatent − 2" demands of a volume of `n_fatent`
FAT entries with `u` clusters in use. -/
def requiredFree (n_fatent u : Nat) : Nat :=
  n_fatent - 2 - u

/-! ## File sizes and positions -/

/-- Modelled from the spec: the largest file of a volume without exFAT, "file
exactly 4 GiB − 1 (FAT)", in bytes. -/
def FAT_MAX_FILE : Nat :=
  4 * 1024 ^ 3 - 1

/-- An offset that lies within a file of `size` bytes or at its end. -/
def isFilePosition (size ofs : Nat) : Prop :=
  ofs ≤ size

instance (size ofs : Nat) : Decidable (isFilePosition size ofs) := by
  unfold isFilePosition
  infer_instance

/-! ## Mount identity -/

/-- Store a number into a `WORD` field. -/
def toWORD (n : Nat) : Nat :=
  n % 2 ^ WORD_BITS

/-- Modelled from the spec: the mount operation (`f_mount` is declared at ff.h
311, its body is in `ff.c`, which is not part of the sources at hand).  The
specification says that "mount bumps its generation id"; the new id is stored
into the `WORD` field `FATFS.id` of ff.h 120.  Only the effect on the id is
modelled. -/
def mount (fs : FATFS) : FATFS :=
  { fs with id := toWORD (fs.id + 1) }

/-- Modelled from the spec: the unmount operation (`f_umount` is declared at ff.h
312, its body is in `ff.c`).  The specification says that "Unmount bumps the
generation" and that on unmount the objects of the volume "become invalid
through generation-id mismatch".  Only the effect on the id is modelled. -/
def umount (fs : FATFS) : FATFS :=
  { fs with id := toWORD (fs.id + 1) }

/-- The operations on a volume that touch its mount id. -/
inductive VolumeOp where
  | mount
  | umount
  deriving DecidableEq, Repr

/-- Effect of one operation on a volume. -/
def VolumeOp.apply : VolumeOp → FATFS → FATFS
  | .mount, fs => FatFs.mount fs
  | .umount, fs => FatFs.umount fs

/-- A history of mounts and unmounts of a volume, the earliest operation first. -/
def runOps : List VolumeOp → FATFS → FATFS
  | [], fs => fs
  | op :: ops, fs => runOps ops (op.apply fs)

/-- The history of `n` cycles of an unmount followed by a mount. -/
def remountCycles : Nat → List VolumeOp
  | 0 => []
  | n + 1 => VolumeOp.umount :: VolumeOp.mount :: remountCycles n

/-- Modelled from the spec: creation of an object on a volume (the open functions
are in `ff.c`).  The object takes "a copy of the volume's mount id" into the
`WORD` field `FFOBJID.id` of ff.h 163. -/
def issueObject (fs : FATFS) : FFOBJID :=
  { id := toWORD fs.id, attr := 0, stat := 0, sclust := 0, objsize := 0 }

/-- Modelled from the spec: an object is "stale if they differ", the ids of the
object and of its volume. -/
def isStale (fs : FATFS) (obj : FFOBJID) : Bool :=
  obj.id != fs.id

/-- A FAT16 volume whose mount id is the largest value of a `WORD`. -/
def wrapVolume : FATFS :=
  { fs_type := 2, id := 65535, last_clst := 4087, free_clst := 4087, n_fatent := 4087 }

/-- A FAT16 volume of 4085 clusters, none of them in use, with the free count
the invariant demands. -/
def emptyVolume : FATFS :=
  { fs_type := 2, id := 1, last_clst := 4087, free_clst := requiredFree 4087 0,
    n_fatent := 4087 }

/-- A prototype of the API: the name of the function and its declared parameters. -/
structure Prototype where
  name : String
  params : List String
  deriving DecidableEq, Repr

/-- The prototypes of ff.h 286-316, in the order of the header. -/
def apiPrototypes : List Prototype :=
  [ ⟨"f_open", ["FFFIL* fp", "FATFS* fs", "const TCHAR* path", "BYTE mode"]⟩,
    ⟨"f_close", ["FFFIL* fp"]⟩,
    ⟨"f_read", ["FFFIL* fp", "void* buff", "UINT btr", "UINT* br"]⟩,
    ⟨"f_write", ["FFFIL* fp", "const void* buff", "UINT btw", "UINT* bw"]⟩,
    ⟨"f_lseek", ["FFFIL* fp", "FSIZE_t ofs"]⟩,
    ⟨"f_truncate", ["FFFIL* fp"]⟩,
    ⟨"f_sync", ["FFFIL* fp"]⟩,
    ⟨"f_opendir", ["FFDIR* dp", "FATFS* fs", "const TCHAR* path"]⟩,
    ⟨"f_closedir", ["FFDIR* dp"]⟩,
    ⟨"f_readdir", ["FFDIR* dp", "FILINFO* fno"]⟩,
    ⟨"f_findfirst", ["FFDIR* dp", "FILINFO* fno", "FATFS* fs", "const TCHAR* path",
      "const TCHAR* pattern"]⟩,
    ⟨"f_findnext", ["FFDIR* dp", "FILINFO* fno"]⟩,
    ⟨"f_mkdir", ["FATFS* fs", "const TCHAR* path"]⟩,
    ⟨"f_unlink", ["FATFS* fs", "const TCHAR* path", "BYTE only_dir"]⟩,
    ⟨"f_rename", ["FATFS* fs", "const TCHAR* path_old", "const TCHAR* path_new"]⟩,
    ⟨"f_stat", ["FATFS* fs", "const TCHAR* path", "FILINFO* fno"]⟩,
    ⟨"f_chmod", ["FATFS* fs", "const TCHAR* path", "BYTE attr", "BYTE mask"]⟩,
    ⟨"f_utime", ["FATFS* fs", "const TCHAR* path", "const FILINFO* fno"]⟩,
    ⟨"f_chdir", ["FATFS* fs", "const TCHAR* path"]⟩,
    ⟨"f_getcwd", ["FATFS* fs", "TCHAR* buff", "UINT len"]⟩,
    ⟨"f_getfree", ["FATFS* fs", "DWORD* nclst"]⟩,
    ⟨"f_getlabel", ["FATFS* fs", "TCHAR* label", "DWORD* vsn"]⟩,
    ⟨"f_setlabel", ["FATFS* fs", "const TCHAR* label"]⟩,
    ⟨"f_forward", ["FFFIL* fp", "UINT(*func)(const BYTE*,UINT)", "UINT btf", "UINT* bf"]⟩,
    ⟨"f_expand", ["FFFIL* fp", "FSIZE_t fsz", "BYTE opt"]⟩,
    ⟨"f_mount", ["FATFS* fs", "void* pdrv", "UINT part"]⟩,
    ⟨"f_umount", ["FATFS* fs"]⟩,
    ⟨"f_mkfs", ["const TCHAR* path", "const MKFS_PARM* opt", "void* work", "UINT len"]⟩,
    ⟨"f_fdisk", ["BYTE pdrv", "const LBA_t ptbl[]", "void* work"]⟩,
    ⟨"f_setcp", ["WORD cp"]⟩,
    ⟨"f_pattern_match", ["const TCHAR* pat", "const TCHAR* nam", "UINT skip", "UINT recur"]⟩ ]

/-- A function-like macro whose replacement is one call: the name of the macro,
its parameters, the function called and the arguments of the call. -/
structure MacroCall where
  name : String
  params : List String
  callee : String
  args : List String
  deriving DecidableEq, Repr

/-- Macro `f_rewind(fp)`: `f_lseek((fp), 0)` (ff.h 323). -/
def f_rewind : MacroCall :=
  ⟨"f_rewind", ["fp"], "f_lseek", ["(fp)", "0"]⟩

/-- Macro `f_rewinddir(dp)`: `f_readdir((dp), 0)` (ff.h 324). -/
def f_rewinddir : MacroCall :=
  ⟨"f_rewinddir", ["dp"], "f_readdir", ["(dp)", "0"]⟩

/-- Macro `f_rmdir(path)`: `f_unlink(path)` (ff.h 325). -/
def f_rmdir : MacroCall :=
  ⟨"f_rmdir", ["path"], "f_unlink", ["path"]⟩

/-- Macro `f_unmount(fs)`: `f_umount(fs)` (ff.h 326). -/
def f_unmount : MacroCall :=
  ⟨"f_unmount", ["fs"], "f_umount", ["fs"]⟩

/-- The call macros of ff.h 323-326. -/
def macroCalls : List MacroCall :=
  [f_rewind, f_rewinddir, f_rmdir, f_unmount]

/-- The prototype a name is declared with, when it is declared. -/
def declaredAs (name : String) : Option Prototype :=
  apiPrototypes.find? (fun p => p.name == name)

/-- Whether the call of a macro names a declared function and passes as many
arguments as that function declares parameters. -/
def callMatchesPrototype (m : MacroCall) : Bool :=
  match declaredAs m.callee with
  | some p => p.params.length == m.args.length
  | none => false

/-! ## Timestamp of the RTC function (ff.h 337) -/

/-- A calendar time in the fields of a FAT timestamp. -/
structure FatTime where
  year80 : Nat
  month : Nat
  day : Nat
  hour : Nat
  minute : Nat
  second2 : Nat
  deriving DecidableEq, Repr

/-- Modelled from the spec: widths of the fields of the value of `get_fattime`,
from the most significant one down: "{year−1980:7, month:4, day:5, hour:5,
minute:6, second/2:5}".  The function is "provided by user" (ff.h 335) and only
declared in the header. -/
def fattimeWidths : List Nat :=
  [7, 4, 5, 5, 6, 5]

/-- Whether every field of a time fits the width the specification gives it. -/
def FatTime.inRange (t : FatTime) : Prop :=
  t.year80 < 2 ^ 7 ∧ t.month < 2 ^ 4 ∧ t.day < 2 ^ 5 ∧
  t.hour < 2 ^ 5 ∧ t.minute < 2 ^ 6 ∧ t.second2 < 2 ^ 5

instance (t : FatTime) : Decidable t.inRange := by
  unfold FatTime.inRange
  infer_instance

/-- Modelled from the spec: the packed `DWORD` of `get_fattime`, the six fields
laid side by side in the order and widths of `fattimeWidths`. -/
def packFatTime (t : FatTime) : Nat :=
  (t.year80 <<< 25) ||| (t.month <<< 21) ||| (t.day <<< 16) |||
  (t.hour <<< 11) ||| (t.minute <<< 5) ||| t.second2

/-- Split of a timestamp at bit 16 into the pair (`fdate`, `ftime`) of the two
`WORD` members of `FILINFO` (ff.h 229-230). -/
def splitFatTime (tm : Nat) : Nat × Nat :=
  (tm >>> 16, tm % 2 ^ WORD_BITS)

/-- Modelled from the spec: the fields read back from a pair (`fdate`, `ftime`),
by the widths of `fattimeWidths`. -/
def unpackFatTime (dt : Nat × Nat) : FatTime :=
  { year80 := dt.1 >>> 9
    month := (dt.1 >>> 5) % 2 ^ 4
    day := dt.1 % 2 ^ 5
    hour := dt.2 >>> 11
    minute := (dt.2 >>> 5) % 2 ^ 6
    second2 := dt.2 % 2 ^ 5 }

/-- A time of day in range: 2024-10-30 17:45:24. -/
def sampleTime : FatTime :=
  { year80 := 44, month := 10, day := 30, hour := 17, minute := 45, second2 := 12 }

/-- A file object of 100 bytes read up to its end. -/
def sampleFile : FFFIL :=
  { obj := { id := 1, attr := 0x20, stat := 0, sclust := 3, objsize := 100 }
    flag := 1, err := 0, fptr := 100, clust := 3, sect := 40 }

/-! # Theorems -/

/-! ## Auxiliary lemmas -/

/-- The difference `0 - 1` of a `w`-bit unsigned type is its all-ones value. -/
theorem usub_zero_one (w : Nat) : usub w 0 1 = 2 ^ w - 1 := by
  have hp : 0 < 2 ^ w := Nat.two_pow_pos w
  unfold usub
  rw [Nat.zero_mod, Nat.zero_add]
  by_cases h1 : 2 ^ w = 1
  · rw [h1]
  · have h2 : 1 < 2 ^ w := by omega
    rw [Nat.mod_eq_of_lt h2]
    exact Nat.mod_eq_of_lt (by omega)

/-- No published attribute bit is the bit `0x08`. -/
theorem mask_and_eight (m : Nat) (h : m ∈ attributeMasks) : m &&& 8 = 0 := by
  simp only [attributeMasks, List.mem_cons, List.mem_singleton, List.not_mem_nil, or_false] at h
  rcases h with h | h | h | h | h <;> subst h <;> decide

/-- An attribute byte built from published bits has the bit `0x08` clear. -/
theorem orAll_and_eight (ms : List Nat) (h : ∀ m ∈ ms, m ∈ attributeMasks) :
    orAll ms &&& 8 = 0 := by
  induction ms with
  | nil => rfl
  | cons m ms ih =>
    have hm : m &&& 8 = 0 := mask_and_eight m (h m (List.mem_cons_self m ms))
    have ht : orAll ms &&& 8 = 0 := ih (fun k hk => h k (List.mem_cons_of_mem m hk))
    have hstep : orAll (m :: ms) = m ||| orAll ms := rfl
    rw [hstep, Nat.and_comm, Nat.and_or_distrib_left, Nat.and_comm 8 m, Nat.and_comm 8 (orAll ms),
      hm, ht]
    rfl

/-- One operation advances the id by one, modulo the range of a `WORD`. -/
theorem apply_id (op : VolumeOp) (fs : FATFS) : (op.apply fs).id = (fs.id + 1) % 65536 := by
  cases op <;> rfl

/-- The id of a volume after a history, modulo the range of a `WORD`. -/
theorem runOps_id (ops : List VolumeOp) (fs : FATFS) :
    (runOps ops fs).id % 65536 = (fs.id + ops.length) % 65536 := by
  induction ops generalizing fs with
  | nil => rfl
  | cons op ops ih =>
    have hstep : runOps (op :: ops) fs = runOps ops (op.apply fs) := rfl
    rw [hstep, ih (op.apply fs), apply_id, List.length_cons]
    omega

/-- A history keeps the id within the range of a `WORD`. -/
theorem runOps_id_lt (ops : List VolumeOp) (fs : FATFS) (h : fs.id < 65536) :
    (runOps ops fs).id < 65536 := by
  induction ops generalizing fs with
  | nil => exact h
  | cons op ops ih =>
    have hstep : runOps (op :: ops) fs = runOps ops (op.apply fs) := rfl
    rw [hstep]
    apply ih
    rw [apply_id]
    omega

/-- A history in two parts runs the first part, then the second. -/
theorem runOps_append (before after : List VolumeOp) (fs : FATFS) :
    runOps (before ++ after) fs = runOps after (runOps before fs) := by
  induction before generalizing fs with
  | nil => rfl
  | cons op ops ih => exact ih (op.apply fs)

/-- The number of operations of `n` cycles of unmount and mount. -/
theorem remountCycles_length (n : Nat) : (remountCycles n).length = 2 * n := by
  induction n with
  | zero => rfl
  | succ n ih =>
    have hstep : remountCycles (n + 1) =
        VolumeOp.umount :: VolumeOp.mount :: remountCycles n := rfl
    rw [hstep, List.length_cons, List.length_cons, ih]
    omega

/-- A shifted value OR-ed with a value below the shift is their sum. -/
theorem shl_or_eq_add (a b i : Nat) (h : b < 2 ^ i) : (a <<< i) ||| b = a * 2 ^ i + b := by
  rw [Nat.shiftLeft_eq, Nat.mul_comm a (2 ^ i)]
  exact (Nat.mul_add_lt_is_or h a).symm

/-- The packed timestamp of a time in range, as a sum of weighted fields. -/
theorem packFatTime_eq (t : FatTime) (h : t.inRange) :
    packFatTime t =
      t.year80 * 33554432 + t.month * 2097152 + t.day * 65536 +
        t.hour * 2048 + t.minute * 32 + t.second2 := by
  obtain ⟨_, hm, hd, hh, hmi, hs⟩ := h
  have e1 := shl_or_eq_add t.minute t.second2 5 hs
  have e2 := shl_or_eq_add t.hour (t.minute * 2 ^ 5 + t.second2) 11 (by omega)
  have e3 := shl_or_eq_add t.day (t.hour * 2 ^ 11 + (t.minute * 2 ^ 5 + t.second2)) 16 (by omega)
  have e4 := shl_or_eq_add t.month
    (t.day * 2 ^ 16 + (t.hour * 2 ^ 11 + (t.minute * 2 ^ 5 + t.second2))) 21 (by omega)
  have e5 := shl_or_eq_add t.year80
    (t.month * 2 ^ 21 + (t.day * 2 ^ 16 + (t.hour * 2 ^ 11 + (t.minute * 2 ^ 5 + t.second2))))
    25 (by omega)
  unfold packFatTime
  rw [Nat.lor_assoc, Nat.lor_assoc, Nat.lor_assoc, Nat.lor_assoc, e1, e2, e3, e4, e5]
  omega

/-! ## Open-mode flags -/

/-- C1, as stated, fails: `FA_OPEN_APPEND` (0x30) is not the bitwise OR of
`FA_OPEN_ALWAYS` (0x10) and `FA_WRITE` (0x02), which is 0x12. -/
theorem open_append_ne_open_always_or_write :
    FA_OPEN_APPEND ≠ FA_OPEN_ALWAYS ||| FA_WRITE := by
  decide

/-- C1, amended: `FA_OPEN_APPEND` is the bitwise OR of `FA_OPEN_ALWAYS` and the
further bit 0x20, it holds no `FA_WRITE` bit, and `FA_OPEN_EXISTING = 0` is the
identity of the flag set under OR. -/
theorem open_append_bits :
    FA_OPEN_APPEND = FA_OPEN_ALWAYS ||| 0x20 ∧
    FA_OPEN_APPEND &&& FA_WRITE = 0 ∧
    FA_OPEN_EXISTING = 0 ∧
    ∀ m : Nat, m ||| FA_OPEN_EXISTING = m ∧ FA_OPEN_EXISTING ||| m = m := by
  refine ⟨by decide, by decide, rfl, fun m => ?_⟩
  simp [FA_OPEN_EXISTING]

/-! ## Result codes -/

/-- C2: `FRESULT` has exactly 20 enumerators, the compiler numbers them 0 to 19
in the order of the header, as their comments state; the numbering is
injective, a result is 0 exactly when it is `FR_OK`, `FR_INVALID_PARAMETER` is
19, and the enumerators are, in order, the result kinds of the table of the
specification with the prefix `FR_`. -/
theorem FRESULT_codes :
    FRESULT_body.length = 20 ∧
    (enumValues FRESULT_body 0).map Prod.snd = List.range 20 ∧
    FRESULT_body.map (fun e => e.commented) = (enumValues FRESULT_body 0).map Prod.snd ∧
    (∀ r : FRESULT, r ∈ FRESULT_body.map (fun e => e.tag)) ∧
    (FRESULT_body.map (fun e => e.tag)).Nodup ∧
    (∀ r : FRESULT, r.toNat < 20) ∧
    Function.Injective FRESULT.toNat ∧
    (∀ r : FRESULT, r.toNat = 0 ↔ r = FRESULT.FR_OK) ∧
    FRESULT.FR_OK.toNat = 0 ∧ FRESULT.FR_INVALID_PARAMETER.toNat = 19 ∧
    FRESULT_body.map (fun e => e.spelling) = specResultKinds.map (fun k => "FR_" ++ k) := by
  refine ⟨by decide, by decide, by decide, ?_, by decide, ?_, ?_, ?_, by decide, by decide,
    by decide⟩
  · intro r; cases r <;> decide
  · intro r; cases r <;> decide
  · intro r s; cases r <;> cases s <;> decide
  · intro r; cases r <;> decide

/-! ## File object macros -/

/-- C3: for a file object with `fptr ≤ objsize`, `f_eof` is 1 exactly when
`f_tell` equals `f_size`, that is when `objsize - fptr` bytes remaining is 0, and
is 0 otherwise; `f_tell`, `f_size` and `f_error` return `fptr`, `obj.objsize`
and `err`, and the four macros leave the object as it was. -/
theorem f_eof_iff_at_end (fp : FFFIL) (h : fp.fptr ≤ fp.obj.objsize) :
    ((f_eof fp).1 = 1 ↔ (f_tell fp).1 = (f_size fp).1) ∧
    ((f_eof fp).1 = 1 ↔ fp.obj.objsize - fp.fptr = 0) ∧
    ((f_eof fp).1 = 0 ↔ fp.obj.objsize - fp.fptr ≠ 0) ∧
    (f_tell fp).1 = fp.fptr ∧ (f_size fp).1 = fp.obj.objsize ∧ (f_error fp).1 = fp.err ∧
    (f_eof fp).2 = fp ∧ (f_tell fp).2 = fp ∧ (f_size fp).2 = fp ∧ (f_error fp).2 = fp := by
  refine ⟨?_, ?_, ?_, rfl, rfl, rfl, rfl, rfl, rfl, rfl⟩
  · by_cases e : fp.fptr = fp.obj.objsize <;> simp [f_eof, f_tell, f_size, e]
  · by_cases e : fp.fptr = fp.obj.objsize
    · simp [f_eof, e]
    · simp [f_eof, e]; omega
  · by_cases e : fp.fptr = fp.obj.objsize
    · simp [f_eof, e]
    · simp [f_eof, e]; omega

/-- Witness of C3: a file of 100 bytes read to its end reports end of file. -/
theorem f_eof_iff_at_end_witness :
    sampleFile.fptr ≤ sampleFile.obj.objsize ∧ (f_eof sampleFile).1 = 1 :=
  ⟨by decide, (f_eof_iff_at_end sampleFile (by decide)).1.mpr rfl⟩

/-! ## Mount identity -/

/-- C4, as stated, fails: a mount of a volume whose id is 65535 yields the id 0,
which is not greater, and an object issued on a volume has the id of the
volume again, so is not detected as stale, after 65536 mounts as well as after
32768 cycles of unmount and mount. -/
theorem mount_id_wraps :
    ¬ (wrapVolume.id < (mount wrapVolume).id) ∧
    (mount wrapVolume).id = 0 ∧
    isStale (runOps (List.replicate 65536 VolumeOp.mount) wrapVolume)
      (issueObject wrapVolume) = false ∧
    isStale (runOps (remountCycles 32768) wrapVolume) (issueObject wrapVolume) = false := by
  have hi : (issueObject wrapVolume).id = 65535 := by decide
  have hv : wrapVolume.id = 65535 := rfl
  refine ⟨by decide, by decide, ?_, ?_⟩
  · have h := runOps_id (List.replicate 65536 VolumeOp.mount) wrapVolume
    have hl := runOps_id_lt (List.replicate 65536 VolumeOp.mount) wrapVolume (by decide)
    rw [List.length_replicate] at h
    simp only [isStale, hi, bne_eq_false_iff_eq]
    omega
  · have h := runOps_id (remountCycles 32768) wrapVolume
    have hl := runOps_id_lt (remountCycles 32768) wrapVolume (by decide)
    rw [remountCycles_length] at h
    simp only [isStale, hi, bne_eq_false_iff_eq]
    omega

/-- C4, amended: the id is a `WORD` that every mount and every unmount bumps
modulo 2^16.  For a history of mounts and unmounts in two parts, the second not
empty, an object issued between the parts is stale at the end when the second
part has fewer than 2^16 operations, and the id at the end is greater than the
id between the parts as long as the counter has not wrapped. -/
theorem mount_id_fresh_until_wrap (fs : FATFS) (before after : List VolumeOp)
    (hid : fs.id < 2 ^ WORD_BITS) (hne : after ≠ []) :
    (after.length < 2 ^ WORD_BITS →
      isStale (runOps (before ++ after) fs) (issueObject (runOps before fs)) = true) ∧
    (fs.id + (before ++ after).length < 2 ^ WORD_BITS →
      (runOps before fs).id < (runOps (before ++ after) fs).id) := by
  have hw : (2 : Nat) ^ WORD_BITS = 65536 := by decide
  rw [hw] at hid
  have hpos : 0 < after.length := List.length_pos.mpr hne
  have hb := runOps_id before fs
  have hbl := runOps_id_lt before fs hid
  have ha := runOps_id after (runOps before fs)
  have hal := runOps_id_lt after (runOps before fs) hbl
  rw [hw, runOps_append, List.length_append]
  constructor
  · intro hd
    have hobj : (issueObject (runOps before fs)).id = (runOps before fs).id % 65536 := rfl
    simp only [isStale, hobj, bne_iff_ne, ne_eq]
    omega
  · intro hs
    omega

/-- Witness of C4, amended: an object issued after the first mount of a volume is
stale after an unmount and a second mount, whose id is greater. -/
theorem mount_id_fresh_until_wrap_witness :
    emptyVolume.id < 2 ^ WORD_BITS ∧
    isStale (runOps ([VolumeOp.mount] ++ [VolumeOp.umount, VolumeOp.mount]) emptyVolume)
      (issueObject (runOps [VolumeOp.mount] emptyVolume)) = true ∧
    (runOps [VolumeOp.mount] emptyVolume).id <
      (runOps ([VolumeOp.mount] ++ [VolumeOp.umount, VolumeOp.mount]) emptyVolume).id :=
  ⟨by decide,
    (mount_id_fresh_until_wrap emptyVolume [VolumeOp.mount] [VolumeOp.umount, VolumeOp.mount]
      (by decide) (by decide)).1 (by decide),
    (mount_id_fresh_until_wrap emptyVolume [VolumeOp.mount] [VolumeOp.umount, VolumeOp.mount]
      (by decide) (by decide)).2 (by decide)⟩

/-! ## Call macros -/

/-- C5 fails at `f_rmdir`: its replacement `f_unlink(path)` passes one argument,
while `f_unlink` is declared with the three parameters `fs`, `path` and
`only_dir`. -/
theorem f_rmdir_call_mismatch :
    callMatchesPrototype f_rmdir = false ∧
    f_rmdir.args.length = 1 ∧
    (declaredAs f_rmdir.callee).map (fun p => p.params) =
      some ["FATFS* fs", "const TCHAR* path", "BYTE only_dir"] := by
  decide

/-- The three other call macros pass as many arguments as their functions declare. -/
theorem other_call_macros_match :
    callMatchesPrototype f_rewind = true ∧ callMatchesPrototype f_rewinddir = true ∧
    callMatchesPrototype f_unmount = true ∧
    macroCalls.filter (fun m => !callMatchesPrototype m) = [f_rmdir] := by
  decide

/-! ## Timestamp -/

/-- C6: the six fields of the timestamp have 32 bits together, 16 in the date
fields and 16 in the time fields; for every time within these widths the packed
value is a `DWORD`, its upper half is the `WORD` of year, month and day, its
lower half the `WORD` of hour, minute and second/2, and unpacking the two halves
returns the time. -/
theorem fattime_roundtrip (t : FatTime) (h : t.inRange) :
    fattimeWidths.sum = DWORD_BITS ∧
    (fattimeWidths.take 3).sum = WORD_BITS ∧ (fattimeWidths.drop 3).sum = WORD_BITS ∧
    packFatTime t < 2 ^ DWORD_BITS ∧
    (splitFatTime (packFatTime t)).1 < 2 ^ WORD_BITS ∧
    (splitFatTime (packFatTime t)).2 < 2 ^ WORD_BITS ∧
    (splitFatTime (packFatTime t)).1 = (t.year80 <<< 9) ||| (t.month <<< 5) ||| t.day ∧
    (splitFatTime (packFatTime t)).2 = (t.hour <<< 11) ||| (t.minute <<< 5) ||| t.second2 ∧
    unpackFatTime (splitFatTime (packFatTime t)) = t := by
  have hp := packFatTime_eq t h
  obtain ⟨hy, hm, hd, hh, hmi, hs⟩ := h
  have hw : (2 : Nat) ^ WORD_BITS = 65536 := by decide
  have hdw : (2 : Nat) ^ DWORD_BITS = 4294967296 := by decide
  have d1 := shl_or_eq_add t.month t.day 5 hd
  have d2 := shl_or_eq_add t.year80 (t.month * 2 ^ 5 + t.day) 9 (by omega)
  have t1 := shl_or_eq_add t.minute t.second2 5 hs
  have t2 := shl_or_eq_add t.hour (t.minute * 2 ^ 5 + t.second2) 11 (by omega)
  refine ⟨by decide, by decide, by decide, ?_, ?_, ?_, ?_, ?_, ?_⟩
  · rw [hp, hdw]; omega
  · simp only [splitFatTime, Nat.shiftRight_eq_div_pow, hp, hw]; omega
  · simp only [splitFatTime, hp, hw]; omega
  · rw [Nat.lor_assoc, d1, d2]
    simp only [splitFatTime, Nat.shiftRight_eq_div_pow, hp]; omega
  · rw [Nat.lor_assoc, t1, t2]
    simp only [splitFatTime, hp, hw]; omega
  · cases t with
    | mk y m d hh mi s =>
      simp only [unpackFatTime, splitFatTime, Nat.shiftRight_eq_div_pow, hp, hw,
        FatTime.mk.injEq] at *
      refine ⟨?_, ?_, ?_, ?_, ?_, ?_⟩ <;> omega

/-- Witness of C6: 2024-10-30 17:45:24 packs to `0x595E8DAC` and comes back. -/
theorem fattime_roundtrip_witness :
    sampleTime.inRange ∧ packFatTime sampleTime = 0x595E8DAC ∧
    unpackFatTime (splitFatTime (packFatTime sampleTime)) = sampleTime :=
  ⟨by decide, by decide, (fattime_roundtrip sampleTime (by decide)).2.2.2.2.2.2.2.2⟩

/-! ## Fast seek control -/

/-- C7, as stated, fails: a C99 build without exFAT is accepted with a 32-bit
`FSIZE_t`, and the end of its largest legal file, the offset 4 GiB − 1, is the
value of `CREATE_LINKMAP`. -/
theorem create_linkmap_is_end_of_largest_fat_file :
    typeSelection (FF_INTDEF true) 64 false false = .ok ⟨32, 32⟩ ∧
    FAT_MAX_FILE < 2 ^ 32 ∧
    isFilePosition FAT_MAX_FILE FAT_MAX_FILE ∧
    FAT_MAX_FILE = CREATE_LINKMAP 32 := by
  refine ⟨rfl, by decide, by decide, ?_⟩
  rw [CREATE_LINKMAP, usub_zero_one]
  decide

/-- C7, amended: in every accepted configuration `CREATE_LINKMAP` is the all-ones
value of `FSIZE_t`: 2^32 − 1 without exFAT when `DWORD` has 32 bits (C99 integer
types, or an `unsigned long` of 32 bits), 2^64 − 1 with exFAT; it differs from
every offset below the size of a file that `FSIZE_t` can hold, and from every
position, the end included, of a file smaller than the all-ones value. -/
theorem create_linkmap_all_ones (c99 exfat lba64 : Bool) (longBits : Nat) (t : SizeTypes)
    (hacc : typeSelection (FF_INTDEF c99) longBits exfat lba64 = .ok t) :
    CREATE_LINKMAP t.fsizeBits = 2 ^ t.fsizeBits - 1 ∧
    (exfat = false → c99 = true ∨ longBits = 32 → CREATE_LINKMAP t.fsizeBits = 2 ^ 32 - 1) ∧
    (exfat = true → CREATE_LINKMAP t.fsizeBits = 2 ^ 64 - 1) ∧
    (∀ size ofs : Nat, size < 2 ^ t.fsizeBits → ofs < size →
      ofs ≠ CREATE_LINKMAP t.fsizeBits) ∧
    (∀ size ofs : Nat, size < CREATE_LINKMAP t.fsizeBits → isFilePosition size ofs →
      ofs ≠ CREATE_LINKMAP t.fsizeBits) := by
  have hc : CREATE_LINKMAP t.fsizeBits = 2 ^ t.fsizeBits - 1 := usub_zero_one _
  refine ⟨hc, ?_, ?_, ?_, ?_⟩
  · intro he hl
    subst he
    have ht : t.fsizeBits = 32 := by
      cases c99 <;> cases lba64 <;>
        simp [typeSelection, FF_INTDEF, DWORD_width, DWORD_BITS] at hacc hl <;>
        subst hacc <;> simp [hl]
    rw [ht] at hc
    rw [ht]
    exact hc
  · intro he
    subst he
    have ht : t.fsizeBits = 64 := by
      cases c99 <;> cases lba64 <;>
        simp [typeSelection, FF_INTDEF, DWORD_width, DWORD_BITS, QWORD_BITS] at hacc <;>
        subst hacc <;> rfl
    rw [ht] at hc
    rw [ht]
    exact hc
  · intro size ofs hs ho
    rw [hc]; omega
  · intro size ofs hs ho
    unfold isFilePosition at ho
    omega

/-- Witness of C7, amended: with C99 and without exFAT `CREATE_LINKMAP` is
4294967295, and the last byte of the largest file, the offset 4294967294, is
another value. -/
theorem create_linkmap_all_ones_witness :
    typeSelection (FF_INTDEF true) 64 false false = .ok ⟨32, 32⟩ ∧
    CREATE_LINKMAP 32 = 2 ^ 32 - 1 ∧
    (4294967294 : Nat) ≠ CREATE_LINKMAP 32 :=
  ⟨rfl, (create_linkmap_all_ones true false false 64 ⟨32, 32⟩ rfl).2.1 rfl (Or.inl rfl),
    (create_linkmap_all_ones true false false 64 ⟨32, 32⟩ rfl).2.2.2.1 4294967295 4294967294
      (by decide) (by decide)⟩

/-! ## Attribute bits -/

/-- C8: the five published attribute masks are single bits, no two of them share
a bit, and the low four bits of every attribute byte OR-ed from them differ from
the long-file-name marker 0x0F. -/
theorem attribute_bits_never_lfn (ms : List Nat) (h : ∀ m ∈ ms, m ∈ attributeMasks) :
    pairwiseDisjoint attributeMasks = true ∧
    (∀ m ∈ attributeMasks, isSingleBit m = true) ∧
    orAll ms &&& 0x0F ≠ AM_LFN := by
  refine ⟨by decide, by decide, fun hc => ?_⟩
  have h8 := orAll_and_eight ms h
  have h2 : orAll ms &&& 0x0F &&& 8 = orAll ms &&& 8 := by
    rw [Nat.land_assoc]
    rfl
  rw [hc, h8] at h2
  exact absurd h2 (by decide)

/-- Witness of C8: all five bits together give 0x37, whose low four bits are 0x07. -/
theorem attribute_bits_never_lfn_witness :
    (∀ m ∈ attributeMasks, m ∈ attributeMasks) ∧ orAll attributeMasks = 0x37 ∧
    orAll attributeMasks &&& 0x0F ≠ AM_LFN :=
  ⟨fun _ hm => hm, by decide, (attribute_bits_never_lfn attributeMasks (fun _ hm => hm)).2.2⟩

/-! ## Advisory counters -/

/-- C10, as stated, fails: a compiler before C99 whose `unsigned long` has 64 bits
is accepted without exFAT and without `FF_LBA64`, and `FSIZE_t` and `LBA_t` then
have 64 bits, not 32. -/
theorem pre_c99_long64_sizes :
    rejected (typeSelection (FF_INTDEF false) 64 false false) = false ∧
    typeSelection (FF_INTDEF false) 64 false false = .ok ⟨64, 64⟩ ∧
    (⟨64, 64⟩ : SizeTypes).fsizeBits ≠ 32 ∧ (⟨64, 64⟩ : SizeTypes).lbaBits ≠ 32 := by
  refine ⟨rfl, rfl, by decide, by decide⟩

/-- C10, amended: the type selection is rejected exactly when exFAT is enabled
without C99 or 64-bit LBA is enabled without exFAT; in every accepted
configuration `FSIZE_t` is `QWORD` (64 bits) when exFAT is enabled and `DWORD`
otherwise, `LBA_t` is `QWORD` when `FF_LBA64` is set and `DWORD` otherwise, and
`LBA_t` is not wider than `FSIZE_t`; where `DWORD` has 32 bits (C99 integer
types, or an `unsigned long` of 32 bits) each of the two is 64 bits wide exactly
when its switch is set and 32 bits wide otherwise. -/
theorem typeSelection_accepts (c99 exfat lba64 : Bool) (longBits : Nat) :
    intdefSection c99 false = .ok (FF_INTDEF c99) ∧
    (rejected (typeSelection (FF_INTDEF c99) longBits exfat lba64) = true ↔
      (exfat = true ∧ c99 = false) ∨ (lba64 = true ∧ exfat = false)) ∧
    ∀ t, typeSelection (FF_INTDEF c99) longBits exfat lba64 = .ok t →
      t.fsizeBits = (if exfat then QWORD_BITS else DWORD_width (FF_INTDEF c99) longBits) ∧
      t.lbaBits = (if lba64 then QWORD_BITS else DWORD_width (FF_INTDEF c99) longBits) ∧
      (c99 = true ∨ longBits = 32 →
        (t.fsizeBits = 64 ↔ exfat = true) ∧ (t.fsizeBits = 32 ↔ exfat = false) ∧
        (t.lbaBits = 64 ↔ lba64 = true) ∧ (t.lbaBits = 32 ↔ lba64 = false)) ∧
      t.lbaBits ≤ t.fsizeBits := by
  cases c99 <;> cases exfat <;> cases lba64 <;>
    simp [typeSelection, FF_INTDEF, intdefSection, rejected, DWORD_width, QWORD_BITS,
      DWORD_BITS]
  intro h
  omega

/-- Witness of C10, amended: C99 with exFAT and 32-bit LBA is accepted with a
64-bit `FSIZE_t` and a 32-bit `LBA_t`. -/
theorem typeSelection_accepts_witness :
    typeSelection (FF_INTDEF true) 64 true false = .ok ⟨64, 32⟩ ∧ (32 : Nat) ≤ 64 :=
  ⟨rfl, ((typeSelection_accepts true true false 64).2.2 ⟨64, 32⟩ rfl).2.2.2⟩

end FatFs
